import Mathlib

/-!
Shallow embedding of `python_mysql.py` (a lightweight wrapper around MySQLdb)
and proofs about its query/condition builder.

Modelling conventions:
- Python values bound as SQL parameters are modelled by `Value` (ints and
  strings suffice for the properties below).
- A Python exception raised by the embedded code is modelled by returning
  `Except.error` with a `PyErr` naming the exception class (and, for
  `OperationalError` and the generic `Exception`, its message string, copied
  verbatim from the source).
- Methods that mutate `self` in place and then return are modelled by state
  passing: the function returns the updated object.  Where the distinction
  between Python `return self` and an implicit `return None` matters, the
  function additionally returns a `PyRet`.
- The source file is the module `python_mysql`.  Its class-name string checks
  such as `str(value.__class__)=="database.conds"` compare against the module
  name `database`, which never matches `python_mysql.conds` /
  `python_mysql.Select`; those branches are dead code, so the embedding takes
  the `else` branch unconditionally (noted at each site).
-/

namespace PythonMysql

/-- A Python value bound as a positional SQL parameter. -/
inductive Value where
  | int (n : Int)
  | str (s : String)
  deriving DecidableEq, Repr

/-- A Python exception escaping one of the embedded methods. -/
inductive PyErr where
  | operationalError (msg : String)
  | exception (msg : String)
  | typeError
  | nameError (name : String)
  | attributeError (name : String)
  | keyError (name : String)
  | indexError
  deriving DecidableEq, Repr

/-- The spec's `MultipleOperationError`: second comparison on a bound
condition (`raise OperationalError,"Multiple Operate conditions"`). -/
def MultipleOperationError : PyErr := .operationalError "Multiple Operate conditions"

/-- The spec's `OperationNoValueError`: AND/OR on an unbound condition. -/
def OperationNoValueError : PyErr := .operationalError "Operation with no value"

/-- The spec's `MultipleRowsError`: `Connection.get` matched several rows. -/
def MultipleRowsError : PyErr := .exception "Multiple rows returned for Database.get() query"

/-- The spec's `InvalidPageError`: `Select.__getslice__` rejects a page id or
page size below 1 (two distinct `OperationalError` messages in the source). -/
def InvalidPageError (e : PyErr) : Prop :=
  e = .operationalError "Wrong page id,page id can not lower than 1" ∨
  e = .operationalError "Wrong page size,page size can not lower than 1"

instance (e : PyErr) : Decidable (InvalidPageError e) := by
  unfold InvalidPageError; infer_instance

/-- Distinguishes Python `return self` from an implicit `return None`. -/
inductive PyRet where
  | selfRet
  | noneRet
  deriving DecidableEq, Repr

/-- The `conds` class: `field_name`, `_sql`, `_params`, `_has_value`,
`_sub_conds` (pairs of sub-condition and connector string), `_no_value`. -/
inductive conds where
  | mk (field_name : String) (sql : String) (params : List Value)
      (has_value : Bool) (sub_conds : List (conds × String)) (no_value : Bool)

namespace conds

/-- `conds.__init__(self, field)`. -/
def init (field : String) : conds := .mk field "" [] false [] false

def field_name : conds → String
  | .mk f _ _ _ _ _ => f

def sql : conds → String
  | .mk _ s _ _ _ _ => s

def params : conds → List Value
  | .mk _ _ p _ _ _ => p

def has_value : conds → Bool
  | .mk _ _ _ h _ _ => h

def sub_conds : conds → List (conds × String)
  | .mk _ _ _ _ sc _ => sc

/-- The state change common to every comparison: `self._sql=sql;
self._params.append(value); self._has_value=True`. -/
def setBound (c : conds) (s : String) (v : Value) : conds :=
  match c with
  | .mk f _ p _ sc nv => .mk f s (p ++ [v]) true sc nv

/-- Appending `(cond, connector)` to `self._sub_conds` (used by `__and__` and
`__or__`). -/
def pushSub (c : conds) (sc : conds × String) : conds :=
  match c with
  | .mk f s p h scs nv => .mk f s p h (scs ++ [sc]) nv

mutual

/-- The pure part of `conds.get_sql` (the `tn=None` path): joins `_sql`, a
space, and, for each `(cond, connector)` sub-condition, the connector followed
by `cond.get_sql()` (the recursive calls pass no alias). -/
def render : conds → String
  | .mk _ s _ _ subs _ => s ++ " " ++ renderSubs subs

def renderSubs : List (conds × String) → String
  | [] => ""
  | (c, conn) :: rest => conn ++ render c ++ renderSubs rest

end

mutual

/-- `conds.get_params`: own `_params` followed by each sub-condition's
parameters, in attachment order. -/
def get_params : conds → List Value
  | .mk _ _ p _ subs _ => p ++ paramsSubs subs

def paramsSubs : List (conds × String) → List Value
  | [] => []
  | (c, _) :: rest => get_params c ++ paramsSubs rest

end

/-- `conds.get_sql(self, tn=None)`.  With `tn=None` it returns the joined
string.  With an alias it executes `import re` then `p=compile(r'...')`:
`compile` resolves to the *builtin* `compile`, which requires three arguments,
so the call raises `TypeError` before any substitution happens. -/
def get_sql (c : conds) (tn : Option String) : Except PyErr String :=
  let w := render c
  match tn with
  | none => .ok w
  | some _ => .error .typeError

/-- `conds._prepare(self, sql, value)`. -/
def prepare (c : conds) (s : String) (v : Value) : Except PyErr conds :=
  if c.has_value = false then
    .ok (c.setBound s v)
  else
    .error MultipleOperationError

/-- `conds.__sub__`. -/
def subOp (c : conds) (v : Value) : Except PyErr conds :=
  c.prepare ("`" ++ c.field_name ++ "`-%s") v

/-- `conds.__add__`. -/
def addOp (c : conds) (v : Value) : Except PyErr conds :=
  c.prepare ("`" ++ c.field_name ++ "`+%s") v

/-- `conds.__ne__`. -/
def neOp (c : conds) (v : Value) : Except PyErr conds :=
  c.prepare ("`" ++ c.field_name ++ "`<>%s") v

/-- `conds.__eq__`.  The `str(value.__class__)=="database.conds"` test is
false in this module (the class is `python_mysql.conds`), so the else branch
always runs: `self._sql` becomes `` `field`=%s `` and `value` is appended. -/
def eqOp (c : conds) (v : Value) : Except PyErr conds :=
  if c.has_value = false then
    .ok (c.setBound ("`" ++ c.field_name ++ "`=%s") v)
  else
    .error MultipleOperationError

/-- `conds.like`. -/
def like (c : conds) (v : Value) : Except PyErr conds :=
  c.prepare ("`" ++ c.field_name ++ "` like %s") v

/-- `conds.DL`. -/
def DL (c : conds) (format : String) (v : Value) : Except PyErr conds :=
  c.prepare ("DATE_FORMAT(`" ++ c.field_name ++ "`,'" ++ format ++ "')<=%s") v

/-- `conds.DG`. -/
def DG (c : conds) (format : String) (v : Value) : Except PyErr conds :=
  c.prepare ("DATE_FORMAT(`" ++ c.field_name ++ "`,'" ++ format ++ "')>=%s") v

/-- `conds.DE`. -/
def DE (c : conds) (format : String) (v : Value) : Except PyErr conds :=
  c.prepare ("DATE_FORMAT(`" ++ c.field_name ++ "`,'" ++ format ++ "')=%s") v

/-- `conds.__le__`. -/
def leOp (c : conds) (v : Value) : Except PyErr conds :=
  c.prepare ("`" ++ c.field_name ++ "`<=%s") v

/-- `conds.__lt__`. -/
def ltOp (c : conds) (v : Value) : Except PyErr conds :=
  c.prepare ("`" ++ c.field_name ++ "`<%s") v

/-- `conds.__gt__`. -/
def gtOp (c : conds) (v : Value) : Except PyErr conds :=
  c.prepare ("`" ++ c.field_name ++ "`>%s") v

/-- `conds.__ge__`. -/
def geOp (c : conds) (v : Value) : Except PyErr conds :=
  c.prepare ("`" ++ c.field_name ++ "`>=%s") v

/-- `conds.In` with a literal collection (the `str(array.__class__)==
"database.Select"` branch is dead in this module): values are inlined as
quoted SQL literals, not parameterized, and `_has_value` is set. -/
def In (c : conds) (array : List String) : Except PyErr conds :=
  if c.has_value = false then
    let vals := String.intercalate "," (array.map (fun i => "'" ++ i ++ "'"))
    match c with
    | .mk f _ p _ scs nv =>
        .ok (.mk f ("`" ++ f ++ "` in (" ++ vals ++ ")") p true scs nv)
  else
    .error MultipleOperationError

/-- `conds.Not_In` with a literal collection (same dead branch as `In`). -/
def Not_In (c : conds) (array : List String) : Except PyErr conds :=
  if c.has_value = false then
    let vals := String.intercalate "," (array.map (fun i => "'" ++ i ++ "'"))
    match c with
    | .mk f _ p _ scs nv =>
        .ok (.mk f ("`" ++ f ++ "` not in (" ++ vals ++ ")") p true scs nv)
  else
    .error MultipleOperationError

/-- `conds.__and__`. -/
def andOp (c other : conds) : Except PyErr conds :=
  if c.has_value then
    .ok (c.pushSub (other, " AND "))
  else
    .error OperationNoValueError

/-- `conds.__or__`. -/
def orOp (c other : conds) : Except PyErr conds :=
  if c.has_value then
    .ok (c.pushSub (other, " OR "))
  else
    .error OperationNoValueError

end conds

/-- One comparison from the set the spec enumerates for the
"one comparison per Condition" invariant. -/
inductive CmpOp where
  | eqC (v : Value)
  | neC (v : Value)
  | ltC (v : Value)
  | leC (v : Value)
  | gtC (v : Value)
  | geC (v : Value)
  | likeC (v : Value)
  | deC (format : String) (v : Value)
  | dlC (format : String) (v : Value)
  | dgC (format : String) (v : Value)
  | addC (v : Value)
  | subC (v : Value)
  | inC (xs : List String)
  | notInC (xs : List String)

/-- Dispatch a `CmpOp` to the corresponding `conds` method. -/
def applyCmp (c : conds) : CmpOp → Except PyErr conds
  | .eqC v => c.eqOp v
  | .neC v => c.neOp v
  | .ltC v => c.ltOp v
  | .leC v => c.leOp v
  | .gtC v => c.gtOp v
  | .geC v => c.geOp v
  | .likeC v => c.like v
  | .deC f v => c.DE f v
  | .dlC f v => c.DL f v
  | .dgC f v => c.DG f v
  | .addC v => c.addOp v
  | .subC v => c.subOp v
  | .inC xs => c.In xs
  | .notInC xs => c.Not_In xs

/-- The `Select` builder's mutable state.  The `db` handle is external and
carries no rendering information, so it is not modelled.  `_tablename` is a
string: the nested-`Select` branches test `str(...)=="database.Select"`,
which never matches `python_mysql.Select`, so they are dead code.  `_groups`
holds `conds` objects (rendering calls `f.get_sql()` on them). -/
structure Select where
  tablename : String
  whereC : Option conds
  sort_fields : List String
  limitC : Option String
  fields : List String
  groups : List conds
  havingC : Option conds

namespace Select

/-- `Select.__init__(self, db, tablename, where)`. -/
def init (tablename : String) (whereC : Option conds) : Select :=
  ⟨tablename, whereC, [], none, [], [], none⟩

/-- `Select.sort(self, **fields)`: clears `_sort_fields`, appends
`` `key` direction `` per mapping entry, `return self`. -/
def sort (s : Select) (fields : List (String × String)) : Select × PyRet :=
  ({ s with sort_fields := fields.map (fun kv => "`" ++ kv.1 ++ "` " ++ kv.2) },
   .selfRet)

/-- `Select.limit(self, start, count)`: sets `_limit`, `return self`. -/
def limit (s : Select) (start count : Int) : Select × PyRet :=
  ({ s with limitC := some ("LIMIT " ++ toString start ++ "," ++ toString count) },
   .selfRet)

/-- `Select.collect(self, *fields)`: appends to `_fields` when nonempty,
`return self` either way. -/
def collect (s : Select) (fs : List String) : Select × PyRet :=
  (if fs.length ≠ 0 then { s with fields := s.fields ++ fs } else s, .selfRet)

/-- `Select.group_by(self, *fields)`: raises on zero fields, otherwise appends
each to `_groups`; the method body has no `return`, so Python returns `None`. -/
def group_by (s : Select) (fs : List conds) : Except PyErr (Select × PyRet) :=
  if fs.length < 1 then
    .error (.operationalError "Must have a field")
  else
    .ok ({ s with groups := s.groups ++ fs }, .noneRet)

/-- `Select.having(self, cond)`: sets `_having`; no `return`, so Python
returns `None`. -/
def having (s : Select) (cond : conds) : Select × PyRet :=
  ({ s with havingC := some cond }, .noneRet)

/-- `Select.__getslice__(self, pid, pcount)`: validates page id and page size,
then sets `_limit = "LIMIT (pid-1)*pcount,pcount"` and `return self`. -/
def getslice (s : Select) (pid pcount : Int) : Except PyErr (Select × PyRet) :=
  if pid < 1 then
    .error (.operationalError "Wrong page id,page id can not lower than 1")
  else if pcount < 1 then
    .error (.operationalError "Wrong page size,page size can not lower than 1")
  else
    .ok ({ s with
            limitC := some ("LIMIT " ++ toString ((pid - 1) * pcount) ++ ","
                              ++ toString pcount) },
         .selfRet)

end Select

namespace Count

/-- `Count.__call__`: with a condition, builds
`SELECT count(1) FROM <table> where <cond-sql>` and passes the condition's
parameters to `db.count`.  Without a condition the source line is
`_sql="",join([...])` — a tuple whose second element calls the undefined name
`join`, raising `NameError` before anything is executed.  The result models
the `(sql, params)` pair handed to `db.count`. -/
def call (tablename : String) (whereC : Option conds) :
    Except PyErr (String × List Value) :=
  match whereC with
  | some w =>
      .ok ("SELECT count(1) FROM " ++ tablename ++ " where " ++ conds.render w,
           conds.get_params w)
  | none => .error (.nameError "join")

end Count

namespace Update

/-- First parameter of each update expression, in order:
`_params.append(f.get_params()[0])`; `none` models the `IndexError` raised
when some expression has no parameters. -/
def firstParams : List conds → Option (List Value)
  | [] => some []
  | f :: rest =>
      match (conds.get_params f).head? with
      | none => none
      | some v => (firstParams rest).map (fun vs => v :: vs)

/-- Parameters contributed by the optional WHERE condition. -/
def whereParams : Option conds → List Value
  | none => []
  | some w => conds.get_params w

/-- `Update.__call__(self, *fields)`: raises on zero fields; otherwise renders
`UPDATE <table> SET <col,...>[ WHERE <cond>]` with parameters = one value per
update expression (its first bound parameter, in the order given) followed by
the WHERE condition's parameters.  The result models the `(sql, params)` pair
handed to `db.execute`. -/
def call (tablename : String) (whereC : Option conds) (fields : List conds) :
    Except PyErr (String × List Value) :=
  if fields.length < 1 then
    .error (.operationalError "Must have unless 1 field to update")
  else
    match firstParams fields with
    | none => .error .indexError
    | some vs =>
        let cols := String.intercalate "," (fields.map conds.render)
        let base := "UPDATE " ++ tablename ++ " SET " ++ cols
        match whereC with
        | none => .ok (base, vs)
        | some w => .ok (base ++ " WHERE " ++ conds.render w,
                         vs ++ conds.get_params w)

end Update

/-- A result `Row`: a dict from column name to value, modelled as an
association list with distinct keys looked up first-match-wins. -/
abbrev Row : Type := List (String × Value)

/-- Python dict lookup `self[name]` on a `Row`, as an `Option`. -/
def lookupRow : Row → String → Option Value
  | [], _ => none
  | (k, v) :: rest, name => if k = name then some v else lookupRow rest name

namespace Row

/-- `Row.__getitem__` (inherited from `dict`): raises `KeyError` when the
column is absent. -/
def getitem (r : Row) (name : String) : Except PyErr Value :=
  match lookupRow r name with
  | some v => .ok v
  | none => .error (.keyError name)

/-- `Row.__getattr__`: `try: return self[name] except KeyError: raise
AttributeError(name)`. -/
def getattrF (r : Row) (name : String) : Except PyErr Value :=
  match getitem r name with
  | .ok v => .ok v
  | .error (.keyError _) => .error (.attributeError name)
  | .error e => .error e

end Row

namespace Connection

/-- `Connection.get(self, query, *parameters)` as a function of the row list
produced by `self.query(...)`: empty result gives `None`, more than one row
raises, otherwise the single row `rows[0]` is returned. -/
def get (rows : List Row) : Except PyErr (Option Row) :=
  if rows = [] then
    .ok none
  else if rows.length > 1 then
    .error MultipleRowsError
  else
    .ok rows.head?

end Connection

section Lemmas

/-- `get_sql` with no alias returns the joined rendering. -/
theorem conds.get_sql_none (c : conds) : c.get_sql none = .ok c.render := rfl

theorem conds.renderSubs_append (xs : List (conds × String)) (b : conds) (k : String) :
    conds.renderSubs (xs ++ [(b, k)]) = conds.renderSubs xs ++ (k ++ conds.render b) := by
  induction xs with
  | nil => simp [conds.renderSubs, String.empty_append, String.append_empty]
  | cons hd tl ih =>
      cases hd with
      | mk c conn => simp [conds.renderSubs, ih, String.append_assoc]

theorem conds.paramsSubs_append (xs : List (conds × String)) (b : conds) (k : String) :
    conds.paramsSubs (xs ++ [(b, k)]) = conds.paramsSubs xs ++ conds.get_params b := by
  induction xs with
  | nil => simp [conds.paramsSubs]
  | cons hd tl ih =>
      cases hd with
      | mk c conn => simp [conds.paramsSubs, ih]

theorem conds.render_pushSub (a b : conds) (k : String) :
    conds.render (a.pushSub (b, k)) = conds.render a ++ k ++ conds.render b := by
  cases a with
  | mk f s p h subs nv =>
      simp [conds.pushSub, conds.render, conds.renderSubs_append, String.append_assoc]

theorem conds.params_pushSub (a b : conds) (k : String) :
    conds.get_params (a.pushSub (b, k)) = conds.get_params a ++ conds.get_params b := by
  cases a with
  | mk f s p h subs nv =>
      simp [conds.pushSub, conds.get_params, conds.paramsSubs_append]

theorem conds.has_value_setBound (c : conds) (s : String) (v : Value) :
    (c.setBound s v).has_value = true := by
  cases c with
  | mk f s0 p h subs nv => rfl

/-- After any successful comparison the condition is marked bound. -/
theorem applyCmp_has_value {c c' : conds} {op : CmpOp} (h : applyCmp c op = .ok c') :
    c'.has_value = true := by
  cases c with
  | mk f s p hv subs nv =>
      cases hv <;> cases op <;>
        simp [applyCmp, conds.eqOp, conds.neOp, conds.ltOp, conds.leOp, conds.gtOp,
          conds.geOp, conds.like, conds.DE, conds.DL, conds.DG, conds.addOp,
          conds.subOp, conds.In, conds.Not_In, conds.prepare, conds.has_value,
          conds.setBound] at h <;>
        simp [← h, conds.has_value]

/-- A bound condition rejects every further comparison with
`MultipleOperationError`. -/
theorem applyCmp_bound_error {c : conds} (h : c.has_value = true) (op : CmpOp) :
    applyCmp c op = .error MultipleOperationError := by
  cases op <;>
    simp [applyCmp, conds.eqOp, conds.neOp, conds.ltOp, conds.leOp, conds.gtOp,
      conds.geOp, conds.like, conds.DE, conds.DL, conds.DG, conds.addOp,
      conds.subOp, conds.In, conds.Not_In, conds.prepare, h]

end Lemmas

section Claims

/-- Claim C1, counterexample: binding column `a` with equals on value 0
renders via `get_sql()` to the string `` `a`=%s `` followed by a trailing
space (the join always appends `" "` after `_sql`), which is not the string
`` `a`=%s `` the claim demands. -/
theorem claim1_counterexample :
    conds.eqOp (conds.init "a") (Value.int 0) =
      .ok (conds.mk "a" "`a`=%s" [Value.int 0] true [] false) ∧
    conds.get_sql (conds.mk "a" "`a`=%s" [Value.int 0] true [] false) none =
      .ok "`a`=%s " ∧
    "`a`=%s " ≠ "`a`=%s" := by
  refine ⟨rfl, rfl, ?_⟩
  decide

/-- Claim C1, amended: for every column `c` and value `v`, the equals-bound
condition renders via `get_sql()` to exactly `` `c`=%s `` followed by one
trailing space, and `get_params()` returns exactly `[v]`. -/
theorem claim1_equals_renders (c : String) (v : Value) :
    ∃ cc, conds.eqOp (conds.init c) v = .ok cc ∧
      cc.get_sql none = .ok ("`" ++ c ++ "`=%s ") ∧
      cc.get_params = [v] := by
  refine ⟨_, rfl, ?_, ?_⟩
  · simp [conds.get_sql, conds.init, conds.setBound, conds.render, conds.renderSubs,
      conds.field_name, String.append_empty, String.append_assoc]
  · simp [conds.init, conds.setBound, conds.get_params, conds.paramsSubs]

/-- Claim C2: once any comparison from the enumerated set has been applied to
a condition, applying any second comparison from that set fails with
`MultipleOperationError`, for every ordered pair of first and second
comparison. -/
theorem claim2_second_comparison_fails (c c1 : conds) (op1 op2 : CmpOp)
    (h : applyCmp c op1 = .ok c1) :
    applyCmp c1 op2 = .error MultipleOperationError :=
  applyCmp_bound_error (applyCmp_has_value h) op2

theorem claim2_witness :
    applyCmp (conds.mk "a" "`a`=%s" [Value.int 1] true [] false)
        (CmpOp.neC (Value.int 2)) = .error MultipleOperationError :=
  claim2_second_comparison_fails (conds.init "a")
    (conds.mk "a" "`a`=%s" [Value.int 1] true [] false)
    (CmpOp.eqC (Value.int 1)) (CmpOp.neC (Value.int 2)) rfl

/-- Claim C3: for a bound condition `A` and any condition `B`, `A & B` renders
to `A.get_sql() + " AND " + B.get_sql()` and its parameters are
`A.get_params() + B.get_params()`; likewise `A | B` with `" OR "`.  `A` here
is arbitrary (it may already carry sub-conditions), so the law applies at
every step of an arbitrarily deep left-to-right AND/OR chain. -/
theorem claim3_and_or_concatenation (a b : conds) (sa sb : String)
    (h : a.has_value = true)
    (ha : a.get_sql none = .ok sa) (hb : b.get_sql none = .ok sb) :
    (∃ ab, conds.andOp a b = .ok ab ∧
      ab.get_sql none = .ok (sa ++ " AND " ++ sb) ∧
      ab.get_params = a.get_params ++ b.get_params) ∧
    (∃ ab, conds.orOp a b = .ok ab ∧
      ab.get_sql none = .ok (sa ++ " OR " ++ sb) ∧
      ab.get_params = a.get_params ++ b.get_params) := by
  have hsa : sa = a.render := by
    simpa [conds.get_sql] using ha.symm
  have hsb : sb = b.render := by
    simpa [conds.get_sql] using hb.symm
  subst hsa hsb
  refine ⟨⟨a.pushSub (b, " AND "), ?_, ?_, ?_⟩,
          ⟨a.pushSub (b, " OR "), ?_, ?_, ?_⟩⟩
  · simp [conds.andOp, h]
  · simp [conds.get_sql, conds.render_pushSub]
  · simp [conds.params_pushSub]
  · simp [conds.orOp, h]
  · simp [conds.get_sql, conds.render_pushSub]
  · simp [conds.params_pushSub]

theorem claim3_witness :
    (∃ ab, conds.andOp (conds.mk "a" "`a`=%s" [Value.int 1] true [] false)
        (conds.mk "b" "`b`>%s" [Value.int 2] true [] false) = .ok ab ∧
      ab.get_sql none = .ok ("`a`=%s " ++ " AND " ++ "`b`>%s ") ∧
      ab.get_params = conds.get_params (conds.mk "a" "`a`=%s" [Value.int 1] true [] false)
        ++ conds.get_params (conds.mk "b" "`b`>%s" [Value.int 2] true [] false)) ∧
    (∃ ab, conds.orOp (conds.mk "a" "`a`=%s" [Value.int 1] true [] false)
        (conds.mk "b" "`b`>%s" [Value.int 2] true [] false) = .ok ab ∧
      ab.get_sql none = .ok ("`a`=%s " ++ " OR " ++ "`b`>%s ") ∧
      ab.get_params = conds.get_params (conds.mk "a" "`a`=%s" [Value.int 1] true [] false)
        ++ conds.get_params (conds.mk "b" "`b`>%s" [Value.int 2] true [] false)) :=
  claim3_and_or_concatenation
    (conds.mk "a" "`a`=%s" [Value.int 1] true [] false)
    (conds.mk "b" "`b`>%s" [Value.int 2] true [] false)
    "`a`=%s " "`b`>%s " rfl rfl rfl

/-- Claim C4: evaluating the code at the failing input.  Rendering any bound
condition with a table alias raises `TypeError`: after `import re` the source
calls the builtin `compile(...)` (one argument) instead of `re.compile(...)`,
so no backtick-quoted identifier is ever rewritten. -/
theorem claim4_alias_raises_typeerror :
    conds.get_sql (conds.mk "a" "`a`=%s" [Value.int 1] true [] false)
      (some "t") = .error PyErr.typeError := rfl

/-- Claim C5: the page-slice shorthand with page=2, size=10 sets the same
LIMIT clause as `limit(10, 10)`; page=1, size=1 sets `LIMIT 0,1`; any page or
size below 1 fails with `InvalidPageError`; and for all page ≥ 1, size ≥ 1
the clause is `LIMIT (page-1)*size,size`. -/
theorem claim5_page_slice (s : Select) :
    (∃ s2, Select.getslice s 2 10 = .ok (s2, PyRet.selfRet) ∧
       s2.limitC = (Select.limit s 10 10).1.limitC) ∧
    (∃ s1, Select.getslice s 1 1 = .ok (s1, PyRet.selfRet) ∧
       s1.limitC = some "LIMIT 0,1") ∧
    (∀ pid pcount : Int, pid < 1 ∨ pcount < 1 →
       ∃ e, Select.getslice s pid pcount = .error e ∧ InvalidPageError e) ∧
    (∀ pid pcount : Int, 1 ≤ pid → 1 ≤ pcount →
       ∃ s', Select.getslice s pid pcount = .ok (s', PyRet.selfRet) ∧
         s'.limitC = some ("LIMIT " ++ toString ((pid - 1) * pcount) ++ ","
                             ++ toString pcount)) := by
  refine ⟨⟨_, rfl, rfl⟩, ⟨_, rfl, rfl⟩, ?_, ?_⟩
  · intro pid pcount hor
    by_cases h1 : pid < 1
    · exact ⟨_, by simp [Select.getslice, h1], Or.inl rfl⟩
    · have h2 : pcount < 1 := hor.resolve_left h1
      exact ⟨_, by simp [Select.getslice, h1, h2], Or.inr rfl⟩
  · intro pid pcount hpid hpcount
    have h1 : ¬ pid < 1 := by omega
    have h2 : ¬ pcount < 1 := by omega
    exact ⟨{ s with limitC := some ("LIMIT " ++ toString ((pid - 1) * pcount)
               ++ "," ++ toString pcount) },
           by simp [Select.getslice, h1, h2], rfl⟩

theorem claim5_witness :
    ∃ e, Select.getslice (Select.init "tbl" none) 0 5 = .error e ∧
      InvalidPageError e :=
  (claim5_page_slice (Select.init "tbl" none)).2.2.1 0 5 (Or.inl (by decide))

/-- Claim C6, counterexample: `having` mutates the builder but its method body
has no `return`, so Python returns `None`, not `self` — the chain-enabling
"returns self" part of the claim fails for `having` (and for `group_by`). -/
theorem claim6_counterexample :
    (Select.having (Select.init "tbl" none) (conds.init "a")).2 = PyRet.noneRet ∧
    PyRet.noneRet ≠ PyRet.selfRet := by
  exact ⟨rfl, by decide⟩

/-- Claim C6, amended: `sort`, `limit` and `collect` mutate the builder and
return `self` (chainable); `group_by` (with at least one field) and `having`
mutate the builder in place but return `None`, so they cannot be chained. -/
theorem claim6_returns (s : Select) (kvs : List (String × String)) (st ct : Int)
    (fs : List String) (c g : conds) (gs : List conds) :
    (Select.sort s kvs).2 = PyRet.selfRet ∧
    (Select.limit s st ct).2 = PyRet.selfRet ∧
    (Select.limit s st ct).1.limitC =
      some ("LIMIT " ++ toString st ++ "," ++ toString ct) ∧
    (Select.collect s fs).2 = PyRet.selfRet ∧
    Select.group_by s (g :: gs) =
      .ok ({ s with groups := s.groups ++ (g :: gs) }, PyRet.noneRet) ∧
    Select.having s c = ({ s with havingC := some c }, PyRet.noneRet) := by
  refine ⟨rfl, rfl, rfl, rfl, ?_, rfl⟩
  simp [Select.group_by]

/-- Claim C7: evaluating the code at the failing input.  With no condition,
`Count.__call__` hits `_sql="",join([...])` — a comma where a dot was meant —
so the undefined name `join` raises `NameError` instead of rendering
`SELECT count(1) FROM <table>`.  With a condition set it renders the
statement (with a lowercase `where`) and passes the condition's parameters. -/
theorem claim7_count_render :
    Count.call "articles" none = .error (PyErr.nameError "join") ∧
    Count.call "articles"
        (some (conds.mk "a" "`a`=%s" [Value.int 1] true [] false)) =
      .ok ("SELECT count(1) FROM articles where `a`=%s ", [Value.int 1]) := by
  exact ⟨rfl, rfl⟩

/-- Each update expression contributes its first bound parameter:
`_params.append(f.get_params()[0])`. -/
theorem firstParams_eq (fields : List conds)
    (hp : ∀ f ∈ fields, conds.get_params f ≠ []) :
    Update.firstParams fields =
      some (fields.map (fun f => (conds.get_params f).headD (Value.int 0))) := by
  induction fields with
  | nil => rfl
  | cons f rest ih =>
      have hf : conds.get_params f ≠ [] := hp f (by simp)
      have ihh := ih (fun g hg => hp g (by simp [hg]))
      cases hcase : conds.get_params f with
      | nil => exact absurd hcase hf
      | cons a l => simp [Update.firstParams, hcase, ihh]

/-- Claim C8: `Update.__call__` with zero column-update expressions fails with
`MissingFieldError` (`OperationalError "Must have unless 1 field to update"`);
with one or more expressions the executed parameters are, in order, the first
bound value of each expression (in the order given) followed by the
where-condition's parameters. -/
theorem claim8_update_params (t : String) (w : Option conds) (fields : List conds)
    (hne : fields ≠ []) (hp : ∀ f ∈ fields, conds.get_params f ≠ []) :
    Update.call t w [] =
      .error (.operationalError "Must have unless 1 field to update") ∧
    ∃ sql, Update.call t w fields =
      .ok (sql, fields.map (fun f => (conds.get_params f).headD (Value.int 0))
                  ++ Update.whereParams w) := by
  refine ⟨rfl, ?_⟩
  have hlen : ¬ fields.length < 1 := by
    cases fields with
    | nil => exact absurd rfl hne
    | cons a l => simp
  cases w with
  | none =>
      refine ⟨"UPDATE " ++ t ++ " SET "
                ++ String.intercalate "," (fields.map conds.render), ?_⟩
      simp [Update.call, hlen, firstParams_eq fields hp, Update.whereParams]
  | some wc =>
      refine ⟨"UPDATE " ++ t ++ " SET "
                ++ String.intercalate "," (fields.map conds.render)
                ++ " WHERE " ++ conds.render wc, ?_⟩
      simp [Update.call, hlen, firstParams_eq fields hp, Update.whereParams]

theorem claim8_witness :
    Update.call "tbl" none [] =
      .error (.operationalError "Must have unless 1 field to update") ∧
    ∃ sql, Update.call "tbl" none [conds.mk "a" "`a`+%s" [Value.int 5] true [] false] =
      .ok (sql, [conds.mk "a" "`a`+%s" [Value.int 5] true [] false].map
            (fun f => (conds.get_params f).headD (Value.int 0))
          ++ Update.whereParams none) :=
  claim8_update_params "tbl" none
    [conds.mk "a" "`a`+%s" [Value.int 5] true [] false]
    (by simp)
    (by intro f hf
        simp only [List.mem_singleton] at hf
        subst hf
        simp [conds.get_params, conds.paramsSubs])

/-- Claim C9: `Connection.get` on the rows a query returned yields `None` on
zero rows, the single row on exactly one row, and fails with
`MultipleRowsError` on two or more rows. -/
theorem claim9_connection_get (r r1 r2 : Row) (rest : List Row) :
    Connection.get ([] : List Row) = .ok none ∧
    Connection.get [r] = .ok (some r) ∧
    Connection.get (r1 :: r2 :: rest) = .error MultipleRowsError := by
  refine ⟨rfl, ?_, ?_⟩
  · simp [Connection.get]
  · have h1 : r1 :: r2 :: rest ≠ [] := by simp
    have h2 : (r1 :: r2 :: rest).length > 1 := by simp
    simp [Connection.get, h1, h2]

/-- Claim C10: attribute access on a `Row` fails with `AttributeError` (the
underlying `KeyError` is caught and not propagated) exactly when the name is
not a column key, and agrees with keyed access on every present key. -/
theorem claim10_row_getattr (r : Row) (nm : String) :
    (lookupRow r nm = none →
       Row.getattrF r nm = .error (.attributeError nm)) ∧
    (∀ v, Row.getitem r nm = .ok v → Row.getattrF r nm = .ok v) := by
  constructor
  · intro hmiss
    simp [Row.getattrF, Row.getitem, hmiss]
  · intro v hv
    simp [Row.getattrF, hv]

theorem claim10_witness :
    Row.getattrF [("a", Value.int 1)] "b" = .error (.attributeError "b") ∧
    Row.getattrF [("a", Value.int 1)] "a" = .ok (Value.int 1) :=
  ⟨(claim10_row_getattr [("a", Value.int 1)] "b").1 rfl,
   (claim10_row_getattr [("a", Value.int 1)] "a").2 (Value.int 1) rfl⟩

end Claims

end PythonMysql
